import Mathlib

/-!
Verification of the Jisang AI land-analysis pipeline.

This file gives a shallow embedding of the pipeline implemented in
`src/app.py` (geocode an address with the Kakao local API, look up
municipal-ordinance text, ask the Gemini model for a report) together with
the components the specification describes that are not present under
`src/` (the PNU `ParcelNumberBuilder` and the `RegistryFetcher`), which are
modelled directly from the specification text.

External HTTP effects are modelled by explicit oracles: an HTTP request
becomes a function from the data the code sends (credential, query, prompt)
to the response, and a Python exception raised inside a `try` block becomes
the `Except.error` case of the oracle's answer, which the embedding handles
exactly where the corresponding `except` clause does.
-/

/-- Python truthiness of an optional string: `None` and `""` are falsy.
`app.py` guards with `if not self.kakao_key`, `if not self.law_key`,
`if self.api_key`. -/
def truthy : Option String → Bool
  | none => false
  | some s => !(s == "")

/-- Value of a hexadecimal digit character, if it is one. -/
def hexVal (c : Char) : Option Nat :=
  if '0' ≤ c ∧ c ≤ '9' then some (c.toNat - 48)
  else if 'a' ≤ c ∧ c ≤ 'f' then some (c.toNat - 87)
  else if 'A' ≤ c ∧ c ≤ 'F' then some (c.toNat - 55)
  else none

/-- Percent-decoding over a character list: `%XY` with two hex digits decodes
to the character of value `16*X + Y`; an ill-formed escape keeps the `%` and
continues with the following characters, as `urllib.parse.unquote` does. -/
def unquoteAux : List Char → List Char
  | [] => []
  | '%' :: a :: b :: rest =>
    match hexVal a, hexVal b with
    | some hi, some lo => Char.ofNat (16 * hi + lo) :: unquoteAux rest
    | _, _ => '%' :: unquoteAux (a :: b :: rest)
  | c :: rest => c :: unquoteAux rest

/-- Embedding of Python `urllib.parse.unquote` (as used by
`SystemConfig.get_secrets` in `app.py`) restricted to ASCII percent escapes,
the form configuration credentials take. -/
def unquote (s : String) : String := ⟨unquoteAux s.data⟩

/-! ## ParcelNumberBuilder (PNU)

The PNU builder is described in the specification (§3, §4.1) but has no
implementation under `src/`; the definitions below are modelled from the
specification text. -/

/-- Decimal digit character for a digit value. -/
def digitChar (d : Nat) : Char := Char.ofNat (48 + d)

/-- Numeric value of a decimal digit character. -/
def charVal (c : Char) : Nat := c.toNat - 48

/-- Modelled from the spec: zero-padding of a lot number to exactly 4 decimal
digits ("mainLotNumber padded to 4 digits; subLotNumber padded to 4 digits if
present, else literal 0000"; an absent sub lot is the value 0). -/
def pad4 (n : Nat) : String :=
  ⟨[digitChar (n / 1000 % 10), digitChar (n / 100 % 10),
    digitChar (n / 10 % 10), digitChar (n % 10)]⟩

/-- Modelled from the spec: `ParcelNumberBuilder.build`, absent from `src/`.
PNU = legalDistrictCode(10) ++ mountainFlag(1, "2" if mountain else "1") ++
mainLotNumber(4, zero-padded) ++ subLotNumber(4, zero-padded). -/
def build (legalDistrictCode : String) (isMountainLot : Bool)
    (mainLotNumber subLotNumber : Nat) : String :=
  legalDistrictCode ++ (if isMountainLot then "2" else "1")
    ++ pad4 mainLotNumber ++ pad4 subLotNumber

/-- Value of a list of decimal digit characters, most significant first. -/
def val4 (cs : List Char) : Nat :=
  cs.foldl (fun acc c => 10 * acc + charVal c) 0

/-- Re-parse the fixed-width PNU fields: district code (10 chars), mountain
flag (1 char, `'2'` = mountain), main lot (4 digits), sub lot (4 digits). -/
def parsePNU (s : String) : String × Bool × Nat × Nat :=
  (⟨s.data.take 10⟩, ((s.data.drop 10).head? == some '2'),
    val4 ((s.data.drop 11).take 4), val4 ((s.data.drop 15).take 4))

theorem charVal_digitChar (d : Nat) (h : d < 10) : charVal (digitChar d) = d := by
  interval_cases d <;> decide

theorem pad4_data (n : Nat) :
    (pad4 n).data = [digitChar (n / 1000 % 10), digitChar (n / 100 % 10),
      digitChar (n / 10 % 10), digitChar (n % 10)] := rfl

theorem pad4_length (n : Nat) : (pad4 n).length = 4 := rfl

theorem val4_pad4 (n : Nat) (h : n < 10000) : val4 (pad4 n).data = n := by
  have h1 : n / 1000 % 10 < 10 := Nat.mod_lt _ (by decide)
  have h2 : n / 100 % 10 < 10 := Nat.mod_lt _ (by decide)
  have h3 : n / 10 % 10 < 10 := Nat.mod_lt _ (by decide)
  have h4 : n % 10 < 10 := Nat.mod_lt _ (by decide)
  simp only [pad4_data, val4, List.foldl, charVal_digitChar _ h1,
    charVal_digitChar _ h2, charVal_digitChar _ h3, charVal_digitChar _ h4]
  omega

theorem build_data (d : String) (m : Bool) (a b : Nat) :
    (build d m a b).data
      = d.data ++ (if m then '2' else '1') :: ((pad4 a).data ++ (pad4 b).data) := by
  cases m <;> simp [build, List.append_assoc]

/-- C4: for every valid tuple (district code of length 10, lot numbers below
10000), `build` returns a string of length exactly 19, and re-parsing the
fixed-width fields out of the result recovers the original inputs. -/
theorem pnu_build_roundtrip (d : String) (m : Bool) (mainLot subLot : Nat)
    (hd : d.length = 10) (hmain : mainLot < 10000) (hsub : subLot < 10000) :
    (build d m mainLot subLot).length = 19 ∧
      parsePNU (build d m mainLot subLot) = (d, m, mainLot, subLot) := by
  have hd' : d.data.length = 10 := hd
  have hdrop : (build d m mainLot subLot).data.drop 10
      = (if m then '2' else '1') :: ((pad4 mainLot).data ++ (pad4 subLot).data) := by
    rw [build_data, List.drop_left' hd']
  refine ⟨?_, ?_⟩
  · show (build d m mainLot subLot).data.length = 19
    rw [build_data]
    simp [hd', pad4_length]
  · have h11 : (build d m mainLot subLot).data.drop 11
        = (pad4 mainLot).data ++ (pad4 subLot).data := by
      have := List.drop_drop 1 10 (build d m mainLot subLot).data
      rw [show (10 + 1 : Nat) = 11 from rfl] at this
      rw [← this, hdrop]
      rfl
    have h15 : (build d m mainLot subLot).data.drop 15 = (pad4 subLot).data := by
      have := List.drop_drop 5 10 (build d m mainLot subLot).data
      rw [show (10 + 5 : Nat) = 15 from rfl] at this
      rw [← this, hdrop, pad4_data]
      rfl
    unfold parsePNU
    rw [build_data, List.take_left' hd', ← build_data, hdrop, h11, h15]
    rw [List.take_left' (by rw [pad4_data]; rfl)]
    rw [show ((pad4 subLot).data.take 4) = (pad4 subLot).data by rw [pad4_data]; rfl]
    rw [val4_pad4 _ hmain, val4_pad4 _ hsub]
    cases m <;> simp

/-- C4 witness: the round-trip law at a concrete valid input. -/
theorem pnu_build_roundtrip_witness :
    (build "1234567890" true 163 1).length = 19 ∧
      parsePNU (build "1234567890" true 163 1) = ("1234567890", true, 163, 1) :=
  pnu_build_roundtrip "1234567890" true 163 1 (by decide) (by decide) (by decide)

/-- C5 counterexample: the spec's expected string for
`build("1234567890", False, "163", "1")` does not match the spec's own
construction rule (main lot 163 pads to "0163", not "0001"). -/
theorem pnu_build_example_counterexample :
    build "1234567890" false 163 1 ≠ "1234567890100010001" := by decide

/-- C5 amended: with independent 4-digit zero-padding of main and sub lot,
`build("1234567890", False, "163", "1")` is `"1234567890101630001"`. -/
theorem pnu_build_example_value :
    build "1234567890" false 163 1 = "1234567890101630001" := by decide

/-! ## DataEngine.get_coordinates (Kakao local search, `app.py` 107-138)

The HTTP call is an oracle `kakaoApi : credential → query → response`; a
transport exception is the oracle's `.error` case and a `json()` parse
exception is the `.error` case of the response body, both landing in the
`except` clause of the source. A successfully parsed document carries the
fields the source reads (`y`, `x`, and the three `address` region names). -/

structure KDoc where
  y : Rat
  x : Rat
  region_1depth : String
  region_2depth : String
  region_3depth : String
deriving DecidableEq

structure KakaoHttp where
  status : Nat
  body : Except String (List KDoc)

structure Coords where
  lat : Rat
  lng : Rat
  region_1depth : String
  region_2depth : String
  region_3depth : String
deriving DecidableEq

/-- Embedding of `DataEngine.get_coordinates`: returns `(coords, error)`
exactly as the source's `return` statements do. -/
def get_coordinates (kakaoApi : String → String → Except String KakaoHttp)
    (kakao_key : Option String) (address : String) :
    Option Coords × Option String :=
  match kakao_key with
  | none => (none, some "API 키 없음 (데모 모드)")
  | some k =>
    if k == "" then (none, some "API 키 없음 (데모 모드)")
    else
      match kakaoApi k address with
      | .error e => (none, some ("네트워크/파싱 오류: " ++ e))
      | .ok response =>
        if response.status == 200 then
          match response.body with
          | .error e => (none, some ("네트워크/파싱 오류: " ++ e))
          | .ok [] => (none, some "주소 검색 결과 없음")
          | .ok (doc :: _) =>
            (some ⟨doc.y, doc.x, doc.region_1depth, doc.region_2depth,
              doc.region_3depth⟩, none)
        else (none, some ("Kakao API 오류: " ++ toString response.status))

/-- Embedding of `DataEngine.get_law_data` (`app.py` 140-159): a stub that
never performs I/O, returning a fixed message when the key is falsy and a
region-templated dummy text otherwise. -/
def get_law_data (law_key : Option String) (region_name : String) : String :=
  if !(truthy law_key) then "도시계획조례 데이터 수신 대기 중 (API Key Missing)"
  else "[" ++ region_name ++ "] 도시계획 조례 검색 결과: \n해당 지역은 제3종일반주거지역에 해당할 가능성이 높으며, 건폐율 50%, 용적률 250% 이하 적용 대상임."

/-! ## AIEngine (`app.py` 164-237) -/

/-- Embedding of `AIEngine._get_demo_response`: the fixed demo report. -/
def _get_demo_response : String :=
  "\n        ### ⚠️ 데모 모드 분석 결과\n"
    ++ "        **현재 Gemini API 키가 설정되지 않았거나 네트워크 오류입니다.**\n"
    ++ "        \n"
    ++ "        #### 1. 법률 분석 (예시)\n"
    ++ "        - 대상지는 **제2종일반주거지역**으로 추정됩니다.\n"
    ++ "        - 일조권 사선 제한 여부를 확인해야 합니다.\n"
    ++ "        \n"
    ++ "        #### 2. 건축 제한 (예시)\n"
    ++ "        - **건폐율**: 60% 이하\n"
    ++ "        - **용적률**: 200% ~ 250%\n"
    ++ "        - **층수 제한**: 지자체 조례에 따라 다름 (보통 7층 이하 또는 제한 없음)\n"
    ++ "        \n"
    ++ "        #### 3. 수익성 전략 (예시)\n"
    ++ "        - 1층 필로티 주차장 + 근린생활시설 추천.\n"
    ++ "        - 상부층은 다세대 주택 혹은 오피스텔로 구성하여 임대 수익 극대화.\n"
    ++ "        "

/-- Embedding of the f-string prompt built at the top of
`AIEngine.generate_report`. -/
def promptOf (address : String) (coords_data : Coords) (law_text : String) : String :=
  "\n        당신은 전문 부동산 컨설턴트 \x27지상 AI\x27입니다. 다음 정보를 바탕으로 상세 분석 보고서를 작성하세요.\n\n"
    ++ "        [분석 대상]\n"
    ++ "        주소: " ++ address ++ "\n"
    ++ "        행정구역: " ++ coords_data.region_1depth ++ " "
    ++ coords_data.region_2depth ++ " " ++ coords_data.region_3depth ++ "\n"
    ++ "        참고 법령 데이터: " ++ law_text ++ "\n\n"
    ++ "        [요청 사항]\n"
    ++ "        다음 3가지 항목으로 나누어 마크다운 형식으로 출력하세요.\n"
    ++ "        1. **법률 분석**: 해당 지역의 용도지역 예측 및 주요 법적 규제 요약.\n"
    ++ "        2. **건축 제한**: 예상 건폐율, 용적률 및 건축 가능한 건물의 형태 제안.\n"
    ++ "        3. **수익성 전략**: 이 땅을 가장 효율적으로 개발하거나 활용할 수 있는 아이디어 (상가주택, 오피스텔 등).\n\n"
    ++ "        정보가 부족하면 보수적으로 추론하고, 추론임을 명시하세요.\n        "

/-- Embedding of `AIEngine.__init__`'s activation logic: the engine is active
when the key is truthy and `genai.configure`/model construction did not
raise (`configOk`). -/
def activeOf (api_key : Option String) (configOk : Bool) : Bool :=
  truthy api_key && configOk

/-- Embedding of `AIEngine.generate_report`. The generative call is the
oracle `model : prompt → Except error text`; an empty `.ok` text is the
source's falsy `response.text`. -/
def generate_report (is_active : Bool) (model : String → Except String String)
    (address : String) (coords_data : Coords) (law_text : String) : String :=
  let prompt := promptOf address coords_data law_text
  if !is_active then _get_demo_response
  else
    match model prompt with
    | .ok t =>
      if t == "" then "AI 분석 결과를 생성하지 못했습니다. (응답 비어있음)" else t
    | .error e =>
      "AI 분석 중 오류가 발생했습니다: " ++ e ++ "\n\n(데모 결과로 대체합니다)\n"
        ++ _get_demo_response

/-! ## SystemConfig.get_secrets and the main pipeline (`app.py` 68-94, 242-301) -/

structure SecretsStore where
  google_raw : Option String
  kakao_raw : Option String
  law_raw : Option String

structure Keys where
  google_api_key : Option String
  kakao_api_key : Option String
  law_api_key : Option String

/-- Embedding of `SystemConfig.get_secrets`: each configured secret is
URL-decoded once with `unquote`; a missing secrets file (`none` store, the
`FileNotFoundError` path) leaves every key `None`. -/
def get_secrets (store : Option SecretsStore) : Keys :=
  match store with
  | none => ⟨none, none, none⟩
  | some s => ⟨s.google_raw.map unquote, s.kakao_raw.map unquote, s.law_raw.map unquote⟩

structure Env where
  kakaoApi : String → String → Except String KakaoHttp
  geminiApi : String → Except String String
  configOk : Bool

structure Report where
  coords : Coords
  law_info : String
  ai_result : String
deriving DecidableEq

/-- The demo coordinates (Seoul City Hall) substituted by `main` when
`get_coordinates` fails (`app.py` 281-290). -/
def demoCoords : Coords :=
  ⟨37.5665, 126.9780, "서울", "중구", "태평로1가"⟩

/-- Embedding of the analysis run in `main` (`app.py` 270-301): geocode,
substitute demo coordinates on failure, fetch law data for the level-2
region, then generate the AI report. -/
def runPipeline (env : Env) (keys : Keys) (target_address : String) : Report :=
  let step1 := get_coordinates env.kakaoApi keys.kakao_api_key target_address
  let coords := step1.1.getD demoCoords
  let law_info := get_law_data keys.law_api_key coords.region_2depth
  let ai_result := generate_report (activeOf keys.google_api_key env.configOk)
    env.geminiApi target_address coords law_info
  ⟨coords, law_info, ai_result⟩

/-! ## RegistryFetcher (spec §4.3)

No registry fetcher exists under `src/` (`get_law_data` is a stub that
performs no HTTP call); the fetcher below is modelled from the
specification. -/

inductive RegistryBody where
  | structuredItem : String → RegistryBody
  | structuredEmpty : RegistryBody
  | plainText : String → RegistryBody
deriving DecidableEq

structure RegistryResponse where
  status : Nat
  body : RegistryBody
deriving DecidableEq

inductive FetchResult where
  | SUCCESS : String → FetchResult
  | EMPTY : FetchResult
  | SourceError : FetchResult
deriving DecidableEq

/-- Modelled from the spec: the RegistryFetcher's response classification,
absent from `src/`. The body shape is inspected, not just the status: a 200
with a plain-text body is `SourceError`; an HTTP 500 is explicitly mapped to
`EMPTY` (the upstream returns 500 for "no record"); any other non-200 status
is `SourceError`. -/
def classify (r : RegistryResponse) : FetchResult :=
  if r.status == 500 then .EMPTY
  else if r.status == 200 then
    match r.body with
    | .structuredItem f => .SUCCESS f
    | .structuredEmpty => .EMPTY
    | .plainText _ => .SourceError
  else .SourceError

/-- Modelled from the spec: the RegistryFetcher's credential policy, absent
from `src/`: try the URL-decoded credential first, and the raw (encoded)
credential only when the first attempt is `SourceError`; the first
structurally-successful attempt wins. Returns the result with the number of
attempts made. -/
def fetch (registryApi : String → RegistryResponse) (rawCredential : String) :
    FetchResult × Nat :=
  match classify (registryApi (unquote rawCredential)) with
  | .SourceError => (classify (registryApi rawCredential), 2)
  | r => (r, 1)

/-! ## Basic string facts used below -/

theorem eq_empty_of_data_eq_nil (s : String) (h : s.data = []) : s = "" :=
  congrArg String.mk h

theorem append_ne_empty_left (s t : String) (h : s ≠ "") : s ++ t ≠ "" := by
  intro he
  apply h
  have hdata : s.data ++ t.data = [] := by
    have hc := congrArg String.data he
    simpa using hc
  exact eq_empty_of_data_eq_nil s (List.append_eq_nil.mp hdata).1

theorem get_law_data_ne_empty (law_key : Option String) (region_name : String) :
    get_law_data law_key region_name ≠ "" := by
  unfold get_law_data
  cases truthy law_key with
  | false =>
    show ("도시계획조례 데이터 수신 대기 중 (API Key Missing)" : String) ≠ ""
    decide
  | true =>
    simp only [Bool.not_true, Bool.false_eq_true, if_false]
    exact append_ne_empty_left _ _ (append_ne_empty_left _ _ (by decide))

theorem generate_report_ne_empty (is_active : Bool)
    (model : String → Except String String) (address : String)
    (coords_data : Coords) (law_text : String) :
    generate_report is_active model address coords_data law_text ≠ "" := by
  cases is_active with
  | false =>
    show _get_demo_response ≠ ""
    decide
  | true =>
    cases hm : model (promptOf address coords_data law_text) with
    | error e =>
      simp only [generate_report, Bool.not_true, Bool.false_eq_true, if_false, hm]
      exact append_ne_empty_left _ _
        (append_ne_empty_left _ _ (append_ne_empty_left _ _ (by decide)))
    | ok t =>
      cases ht : t == "" with
      | true => simp [generate_report, hm, ht]
      | false =>
        simp only [generate_report, Bool.not_true, Bool.false_eq_true, if_false, hm, ht]
        exact fun h => by simp [h] at ht

/-! ## C6: registry HTTP 500 -/

/-- C6: a registry response with HTTP status 500 on the first (decoded)
attempt is classified `EMPTY`, not `SourceError`, and the fetcher makes no
second attempt. -/
theorem registry_http500_empty_no_retry
    (registryApi : String → RegistryResponse) (rawCredential : String)
    (h : (registryApi (unquote rawCredential)).status = 500) :
    fetch registryApi rawCredential = (.EMPTY, 1) := by
  have hc : classify (registryApi (unquote rawCredential)) = .EMPTY := by
    simp [classify, h]
  simp [fetch, hc]

def registryApiC6 : String → RegistryResponse := fun _ => ⟨500, .structuredEmpty⟩

/-- C6 witness: the 500-to-EMPTY mapping at a concrete oracle. -/
theorem registry_http500_empty_no_retry_witness :
    fetch registryApiC6 "KEY%2F1" = (.EMPTY, 1) :=
  registry_http500_empty_no_retry registryApiC6 "KEY%2F1" rfl

/-! ## C7: credential encoding attempts -/

def docC7 : KDoc := ⟨1, 2, "서울", "강남구", "역삼동"⟩

/-- Kakao oracle for C7: the raw (still-encoded) credential would succeed
with one candidate; the decoded credential is rejected with 401. -/
def kakaoApiC7 : String → String → Except String KakaoHttp := fun k _ =>
  if k == "key%2F1" then .ok ⟨200, .ok [docC7]⟩ else .ok ⟨401, .ok []⟩

/-- C7 counterexample: the source decodes the credential once
(`get_secrets`) and fetches with the decoded form only. Although the raw
form would yield a successful parse, the fetch fails — so the fetcher
neither tries both forms nor succeeds when only the raw attempt would. -/
theorem credential_single_attempt_counterexample :
    (get_secrets (some ⟨none, some "key%2F1", none⟩)).kakao_api_key = some "key/1" ∧
      kakaoApiC7 "key%2F1" "주소" = .ok ⟨200, .ok [docC7]⟩ ∧
      get_coordinates kakaoApiC7
          (get_secrets (some ⟨none, some "key%2F1", none⟩)).kakao_api_key "주소"
        = (none, some "Kakao API 오류: 401") := by
  refine ⟨by decide, rfl, by decide⟩

/-- C7 amended: every fetch makes a single attempt using only the
URL-decoded credential: the result depends only on the service's behaviour
at the decoded credential and never on its behaviour at the raw one. -/
theorem credential_decoded_only
    (api1 api2 : String → String → Except String KakaoHttp)
    (raw address : String)
    (h : ∀ q, api1 (unquote raw) q = api2 (unquote raw) q) :
    get_coordinates api1
        (get_secrets (some ⟨none, some raw, none⟩)).kakao_api_key address
      = get_coordinates api2
          (get_secrets (some ⟨none, some raw, none⟩)).kakao_api_key address := by
  show get_coordinates api1 (some (unquote raw)) address
      = get_coordinates api2 (some (unquote raw)) address
  simp only [get_coordinates]
  rw [h address]

def kakaoApiC7a : String → String → Except String KakaoHttp :=
  fun _ _ => .ok ⟨404, .ok []⟩

def kakaoApiC7b : String → String → Except String KakaoHttp := fun k _ =>
  if k == "raw%20key" then .ok ⟨200, .ok [docC7]⟩ else .ok ⟨404, .ok []⟩

/-- C7 witness: two oracles agreeing at the decoded credential but differing
at the raw one give the same fetch result. -/
theorem credential_decoded_only_witness :
    get_coordinates kakaoApiC7a
        (get_secrets (some ⟨none, some "raw%20key", none⟩)).kakao_api_key "주소"
      = get_coordinates kakaoApiC7b
          (get_secrets (some ⟨none, some "raw%20key", none⟩)).kakao_api_key "주소" :=
  credential_decoded_only kakaoApiC7a kakaoApiC7b "raw%20key" "주소" (fun _ => rfl)

/-! ## C8: report fallback on service error / missing credential -/

def errModelC8a : String → Except String String := fun _ => .error "E1"

def errModelC8b : String → Except String String := fun _ => .error "E2"

def coordsC8 : Coords := ⟨1, 2, "서울", "강남구", "역삼동"⟩

/-- C8 counterexample: two distinct service errors yield two distinct return
values, so the string returned on a service error is not one fixed string. -/
theorem report_fallback_not_fixed_counterexample :
    generate_report true errModelC8a "주소" coordsC8 "법령"
      ≠ generate_report true errModelC8b "주소" coordsC8 "법령" := by decide

/-- C8 amended: `generate_report` never raises; with a missing credential
(inactive engine) it returns the fixed clearly-labeled demo string, and on a
service error it returns the error detail followed by the fixed
clearly-labeled demo string. -/
theorem report_fallback_behavior
    (model : String → Except String String) (address : String)
    (coords_data : Coords) (law_text : String) (e : String) :
    generate_report false model address coords_data law_text = _get_demo_response ∧
      (model (promptOf address coords_data law_text) = .error e →
        generate_report true model address coords_data law_text
          = "AI 분석 중 오류가 발생했습니다: " ++ e
              ++ "\n\n(데모 결과로 대체합니다)\n" ++ _get_demo_response) := by
  refine ⟨rfl, fun hm => ?_⟩
  simp [generate_report, hm]

/-- C8 witness: the error-path fallback at a concrete service error. -/
theorem report_fallback_behavior_witness :
    generate_report true errModelC8a "주소" coordsC8 "법령"
      = "AI 분석 중 오류가 발생했습니다: " ++ "E1"
          ++ "\n\n(데모 결과로 대체합니다)\n" ++ _get_demo_response :=
  (report_fallback_behavior errModelC8a "주소" coordsC8 "법령" "E1").2 rfl

/-! ## C10: inactive engine -/

/-- C10: with no configured generative key the engine is inactive and every
input yields the fixed demo string, independent of the generative service. -/
theorem inactive_engine_demo_response
    (google_api_key : Option String) (configOk : Bool)
    (model1 model2 : String → Except String String)
    (address : String) (coords_data : Coords) (law_text : String)
    (h : truthy google_api_key = false) :
    generate_report (activeOf google_api_key configOk) model1 address coords_data law_text
        = _get_demo_response ∧
      generate_report (activeOf google_api_key configOk) model1 address coords_data law_text
        = generate_report (activeOf google_api_key configOk) model2 address
            coords_data law_text := by
  have ha : activeOf google_api_key configOk = false := by simp [activeOf, h]
  rw [ha]
  exact ⟨rfl, rfl⟩

def modelC10a : String → Except String String := fun _ => .ok "live text"

def modelC10b : String → Except String String := fun _ => .error "down"

def coordsC10 : Coords := ⟨1, 2, "서울", "중구", "태평로1가"⟩

/-- C10 witness: the inactive-engine behaviour at concrete inputs. -/
theorem inactive_engine_demo_response_witness :
    generate_report (activeOf none true) modelC10a "주소" coordsC10 "법령"
        = _get_demo_response ∧
      generate_report (activeOf none true) modelC10a "주소" coordsC10 "법령"
        = generate_report (activeOf none true) modelC10b "주소" coordsC10 "법령" :=
  inactive_engine_demo_response none true modelC10a modelC10b "주소" coordsC10 "법령" rfl

/-! ## C3: first candidate wins -/

/-- C3: whenever the Kakao response is a 200 whose parsed candidate list is
non-empty, `get_coordinates` builds its result from exactly the first
candidate, whatever the remaining candidates are. -/
theorem geocode_first_candidate
    (kakaoApi : String → String → Except String KakaoHttp)
    (k address : String) (doc : KDoc) (rest : List KDoc)
    (hk : k ≠ "")
    (hr : kakaoApi k address = .ok ⟨200, .ok (doc :: rest)⟩) :
    get_coordinates kakaoApi (some k) address
      = (some ⟨doc.y, doc.x, doc.region_1depth, doc.region_2depth,
          doc.region_3depth⟩, none) := by
  simp [get_coordinates, hr, hk]

def docC3a : KDoc := ⟨37, 127, "서울", "강남구", "삼성동"⟩

def docC3b : KDoc := ⟨35, 129, "부산", "해운대구", "우동"⟩

def kakaoApiC3 : String → String → Except String KakaoHttp :=
  fun _ _ => .ok ⟨200, .ok [docC3a, docC3b]⟩

/-- C3 witness: with two candidates returned, the result comes from the
first one. -/
theorem geocode_first_candidate_witness :
    get_coordinates kakaoApiC3 (some "KEY") "테헤란로 427"
      = (some ⟨docC3a.y, docC3a.x, docC3a.region_1depth, docC3a.region_2depth,
          docC3a.region_3depth⟩, none) :=
  geocode_first_candidate kakaoApiC3 "KEY" "테헤란로 427" docC3a [docC3b]
    (by decide) rfl

/-! ## C9: totality and exclusivity of get_coordinates -/

/-- C9: `get_coordinates` is total and its two result components are
exclusive: either a coordinate record with no error, or no record together
with a non-empty error message — on every path (missing key, transport or
parse failure, non-200 status, empty candidate list). -/
theorem get_coordinates_total_exclusive
    (kakaoApi : String → String → Except String KakaoHttp)
    (kakao_key : Option String) (address : String) :
    (∃ c, get_coordinates kakaoApi kakao_key address = (some c, none)) ∨
      (∃ e, get_coordinates kakaoApi kakao_key address = (none, some e) ∧ e ≠ "") := by
  rcases kakao_key with _ | k
  · exact Or.inr ⟨"API 키 없음 (데모 모드)", rfl, by decide⟩
  · cases hk : k == "" with
    | true =>
      refine Or.inr ⟨"API 키 없음 (데모 모드)", ?_, by decide⟩
      simp [get_coordinates, hk]
    | false =>
      cases hr : kakaoApi k address with
      | error e =>
        refine Or.inr ⟨"네트워크/파싱 오류: " ++ e, ?_,
          append_ne_empty_left _ _ (by decide)⟩
        simp [get_coordinates, hk, hr]
      | ok response =>
        rcases response with ⟨status, body⟩
        cases hs : status == 200 with
        | false =>
          refine Or.inr ⟨"Kakao API 오류: " ++ toString status, ?_,
            append_ne_empty_left _ _ (by decide)⟩
          simp [get_coordinates, hk, hr, hs]
        | true =>
          rcases body with e | docs
          · refine Or.inr ⟨"네트워크/파싱 오류: " ++ e, ?_,
              append_ne_empty_left _ _ (by decide)⟩
            simp [get_coordinates, hk, hr, hs]
          · rcases docs with _ | ⟨doc, rest⟩
            · refine Or.inr ⟨"주소 검색 결과 없음", ?_, by decide⟩
              simp [get_coordinates, hk, hr, hs]
            · refine Or.inl ⟨⟨doc.y, doc.x, doc.region_1depth, doc.region_2depth,
                doc.region_3depth⟩, ?_⟩
              simp [get_coordinates, hk, hr, hs]

/-! ## C1: the pipeline always completes with a report -/

/-- C1: every run of the pipeline completes and produces a report: the law
text and the AI text are always non-empty strings, a geocode failure is
recovered locally by substituting the demo coordinates (a geocode success is
used as-is), a missing law credential yields the fixed placeholder text, and
an inactive AI engine yields the fixed demo report — no failure of a data
source aborts the run. -/
theorem pipeline_always_produces_report (env : Env) (keys : Keys)
    (target_address : String) :
    (runPipeline env keys target_address).law_info ≠ "" ∧
      (runPipeline env keys target_address).ai_result ≠ "" ∧
      ((get_coordinates env.kakaoApi keys.kakao_api_key target_address).1 = none →
        (runPipeline env keys target_address).coords = demoCoords) ∧
      (∀ c, (get_coordinates env.kakaoApi keys.kakao_api_key target_address).1 = some c →
        (runPipeline env keys target_address).coords = c) ∧
      (truthy keys.law_api_key = false →
        (runPipeline env keys target_address).law_info
          = "도시계획조례 데이터 수신 대기 중 (API Key Missing)") ∧
      (activeOf keys.google_api_key env.configOk = false →
        (runPipeline env keys target_address).ai_result = _get_demo_response) := by
  refine ⟨get_law_data_ne_empty _ _, generate_report_ne_empty _ _ _ _ _, ?_, ?_, ?_, ?_⟩
  · intro h
    simp [runPipeline, h]
  · intro c h
    simp [runPipeline, h]
  · intro h
    simp [runPipeline, get_law_data, h]
  · intro h
    simp [runPipeline, h, generate_report]

def envC1 : Env := ⟨fun _ _ => .error "timeout", fun _ => .error "quota", false⟩

def keysC1 : Keys := ⟨none, none, none⟩

/-- C1 witness: a run in which every data source fails still yields the demo
coordinates and the fixed fallback texts. -/
theorem pipeline_always_produces_report_witness :
    (runPipeline envC1 keysC1 "서울특별시 강남구 테헤란로 427").coords = demoCoords :=
  (pipeline_always_produces_report envC1 keysC1 "서울특별시 강남구 테헤란로 427").2.2.1 rfl

/-! ## C2: zero geocoding candidates -/

def kakaoApiC2 : String → String → Except String KakaoHttp :=
  fun _ _ => .ok ⟨200, .ok []⟩

def envC2 : Env := ⟨kakaoApiC2, fun _ => .ok "REPORT", true⟩

def keysC2 : Keys := ⟨some "G", some "K", some "L"⟩

/-- C2 counterexample: with a zero-candidate geocoding response the pipeline
does not stop at a terminal error: it substitutes the demo coordinates and
still executes the downstream law-data and report-generation steps — the
live generative service's output even becomes the report. -/
theorem geocode_zero_candidates_counterexample :
    get_coordinates envC2.kakaoApi keysC2.kakao_api_key "경기도 김포시 통진읍 도사리 163-1"
        = (none, some "주소 검색 결과 없음") ∧
      runPipeline envC2 keysC2 "경기도 김포시 통진읍 도사리 163-1"
        = ⟨demoCoords, get_law_data (some "L") "중구", "REPORT"⟩ := by
  exact ⟨rfl, rfl⟩

/-- C2 amended: a zero-candidate geocoding response makes `get_coordinates`
report "주소 검색 결과 없음"; the pipeline treats this like any other geocode
failure — it substitutes the demo coordinates and still executes the
law-data fetch and the report generation on them, rather than surfacing a
terminal error. -/
theorem geocode_zero_candidates_continues (env : Env) (keys : Keys)
    (k target_address : String)
    (hk : keys.kakao_api_key = some k) (hk0 : k ≠ "")
    (hr : env.kakaoApi k target_address = .ok ⟨200, .ok []⟩) :
    get_coordinates env.kakaoApi keys.kakao_api_key target_address
        = (none, some "주소 검색 결과 없음") ∧
      runPipeline env keys target_address
        = ⟨demoCoords, get_law_data keys.law_api_key demoCoords.region_2depth,
            generate_report (activeOf keys.google_api_key env.configOk) env.geminiApi
              target_address demoCoords
              (get_law_data keys.law_api_key demoCoords.region_2depth)⟩ := by
  have h1 : get_coordinates env.kakaoApi keys.kakao_api_key target_address
      = (none, some "주소 검색 결과 없음") := by
    simp [get_coordinates, hk, hk0, hr]
  exact ⟨h1, by simp [runPipeline, h1]⟩

/-- C2 witness for the amended claim, at a concrete environment. -/
theorem geocode_zero_candidates_continues_witness :
    get_coordinates envC2.kakaoApi keysC2.kakao_api_key "경기도 김포시"
        = (none, some "주소 검색 결과 없음") ∧
      runPipeline envC2 keysC2 "경기도 김포시"
        = ⟨demoCoords, get_law_data keysC2.law_api_key demoCoords.region_2depth,
            generate_report (activeOf keysC2.google_api_key envC2.configOk)
              envC2.geminiApi "경기도 김포시" demoCoords
              (get_law_data keysC2.law_api_key demoCoords.region_2depth)⟩ :=
  geocode_zero_candidates_continues envC2 keysC2 "K" "경기도 김포시" rfl
    (by decide) rfl
